import Mathlib

/-!
Verification of the authentication core of the fastapi-auth repository.

The embedded code is src/services/user_service.py (class UserService, methods
log_user_in and signup_user). Its collaborators — the user repository
(repositories/user_repository.py), the request schemas (schemas/user.py), the
password utilities (utils/password.py) and the JWT utilities (utils/jwt.py) —
are not part of the source tree; they are modelled from the spec, as marked on
each definition. The User record follows src/models/user.py.

State is passed explicitly: the repository is a list of user records, every
service operation returns its result (a value or the raised HTTPException)
together with the repository state after the call. The clock is passed as a
natural number of seconds.
-/

/-- User record, from src/models/user.py: name, email, profile_pic and password
are the mapped columns; email is mandatory, the rest are nullable. The password
column stores a hash, never the plaintext. -/
structure User where
  name : Option String
  email : String
  profile_pic : Option String
  password : Option String
deriving DecidableEq, Repr

/-- Repository state: the stored user records, in insertion order. -/
abbrev RepoState := List User

/-- Settings consumed by the authentication core, from src/settings.py
(class Settings): only the fields the core flow reads are embedded. -/
structure Settings where
  passwordless_login_enabled : Bool
  email_verification_required : Bool
  jwt_secret_key : String
  jwt_algorithm : String
  jwt_access_token_expire_minutes : Nat
  jwt_refresh_token_expire_minutes : Nat
  jwt_audience : String
deriving DecidableEq, Repr

/-- The fastapi HTTPException the service raises: a status code and a detail
message. -/
structure HTTPException where
  status_code : Nat
  detail : String
deriving DecidableEq, Repr

/-- Login request body. Modelled from the spec: schemas/user.py is not in the
source tree; the spec says email and password are both required fields of the
login request. -/
structure UserPasswordLoginSchema where
  email : String
  password : String
deriving DecidableEq, Repr

/-- Signup request body. Modelled from the spec: schemas/user.py is not in the
source tree. The password may be absent, since src/services/user_service.py
constructs the schema from an email alone and the spec makes the password
optional under passwordless mode. -/
structure UserSignupSchema where
  email : String
  password : Option String
deriving DecidableEq, Repr

/-- Claims encoded in a session credential. Modelled from the spec: subject,
audience, issued-at and expiry; expiry is issued-at plus the configured TTL. -/
structure TokenClaims where
  sub : String
  aud : String
  iat : Nat
  exp : Nat
deriving DecidableEq, Repr

/-- A signed token: the claims together with a signature over them. Modelled
from the spec: utils/jwt.py is not in the source tree. The signature is
modelled as a string determined by the signing key and the claims, so that a
token verifies only with the key that issued it. -/
structure SignedToken where
  claims : TokenClaims
  sig : String
deriving DecidableEq, Repr

/-- Signature of a claim set under a secret key: a canonical encoding of the
key together with the claims. Modelled from the spec: a token must be
verifiable only with the signing key configured for the issuing instance. -/
def sign_claims (secret : String) (c : TokenClaims) : String :=
  secret ++ "|" ++ c.sub ++ "|" ++ c.aud ++ "|" ++ toString c.iat ++ "|" ++ toString c.exp

/-- Mint a signed token for a subject with the given TTL in minutes. Modelled
from the spec: expiry is computed as issued-at plus the configured TTL. -/
def issue_token (sub : String) (s : Settings) (now ttlMinutes : Nat) : SignedToken :=
  { claims := { sub := sub, aud := s.jwt_audience, iat := now,
                exp := now + ttlMinutes * 60 },
    sig := sign_claims s.jwt_secret_key
      { sub := sub, aud := s.jwt_audience, iat := now, exp := now + ttlMinutes * 60 } }

/-- Issue an access token for a user. Modelled from the spec: the subject is
the user identity, the TTL is jwt_access_token_expire_minutes. -/
def issue (user : User) (s : Settings) (now : Nat) : SignedToken :=
  issue_token user.email s now s.jwt_access_token_expire_minutes

/-- Token validation errors. Modelled from the spec: TokenError distinguishes
Expired, BadSignature and Malformed. -/
inductive TokenError where
  | Expired
  | BadSignature
  | Malformed
deriving DecidableEq, Repr

/-- Validate a token against a key at a given time. Modelled from the spec:
a token must be verifiable only with the issuing key (else BadSignature) and
must be rejected once the configured TTL has elapsed (Expired). -/
def validate (tok : SignedToken) (secret : String) (now : Nat) :
    Except TokenError TokenClaims :=
  if tok.sig ≠ sign_claims secret tok.claims then
    Except.error TokenError.BadSignature
  else if tok.claims.exp ≤ now then
    Except.error TokenError.Expired
  else
    Except.ok tok.claims

/-- Successful authentication response, the AuthResult of the spec: a fresh
access and refresh token. Modelled from the spec: schemas/user.py is not in
the source tree. -/
structure UserJWTResponseSchema where
  access_token : SignedToken
  refresh_token : SignedToken
deriving DecidableEq, Repr

/-- The generate_jwt_token helper of utils/jwt.py, which is not in the source
tree. Modelled from the spec: mints a fresh access token and a fresh refresh
token for the user, with their distinct configured TTLs. -/
def generate_jwt_token (user : User) (s : Settings) (now : Nat) :
    UserJWTResponseSchema :=
  { access_token := issue user s now,
    refresh_token := issue_token user.email s now s.jwt_refresh_token_expire_minutes }

/-- Repository lookup, async method get_user_by_email of
repositories/user_repository.py, which is not in the source tree. Modelled
from the spec: get_user_by_email(email) returns the User with that email or
None. -/
def get_user_by_email (st : RepoState) (email : String) : Option User :=
  st.find? (fun u => u.email == email)

/-- Repository insertion, async method create_user of
repositories/user_repository.py, which is not in the source tree. Modelled
from the spec: create_user(signup_data) persists one new user record, storing
a hash of the password, never the plaintext. -/
def create_user (st : RepoState) (u : UserSignupSchema) : RepoState :=
  st ++ [{ name := none, email := u.email, profile_pic := none,
           password := u.password.map (fun p => "h$" ++ p) }]

/-- Password check, verify_password of utils/password.py, which is not in the
source tree. Modelled from the spec: verify(plaintext, hash) compares the
submitted plaintext against the stored hash and returns a boolean. -/
def verify_password (password : String) (hashed_password : String) : Bool :=
  "h$" ++ password == hashed_password

/-- UserService.signup_user, from src/services/user_service.py lines 49-68.

The source reads:
  user = self.repository.get_user_by_email(email=user_signup.email)
with NO await, although the repository method is an async coroutine function
(log_user_in awaits the very same method, and signup_user awaits
repository.create_user). In Python the call therefore binds the coroutine
object itself to user, never a User or None; a coroutine object is truthy, so
the subsequent duplicate check
  if user: raise HTTPException(status_code=400, detail="User already exists.")
is taken on every call, whatever the repository holds. The two earlier
branches (passwordless_login_enabled, email_verification_required) are
explicit no-ops (pass) in the source. The create_user call and the final
generate_jwt_token call are unreachable. Hence the faithful embedding: the
call always raises the 400 duplicate exception and leaves the state
unchanged. -/
def signup_user (st : RepoState) (_s : Settings) (_u : UserSignupSchema)
    (_now : Nat) : Except HTTPException UserJWTResponseSchema × RepoState :=
  (Except.error { status_code := 400, detail := "User already exists." }, st)

/-- The tail of UserService.log_user_in after the passwordless branch, from
src/services/user_service.py lines 37-46: the stored-password check (Python
falsiness: None and the empty string both fail "if not user.password"), the
verify_password check, and token generation on success. -/
def log_user_in_tail (st : RepoState) (s : Settings) (user : User)
    (l : UserPasswordLoginSchema) (now : Nat) :
    Except HTTPException UserJWTResponseSchema × RepoState :=
  match user.password with
  | none =>
      (Except.error { status_code := 400, detail := "Password is required." }, st)
  | some h =>
      if h = "" then
        (Except.error { status_code := 400, detail := "Password is required." }, st)
      else if verify_password l.password h then
        (Except.ok (generate_jwt_token user s now), st)
      else
        (Except.error { status_code := 401, detail := "Invalid credentials" }, st)

/-- UserService.log_user_in, from src/services/user_service.py lines 22-46:
fetch the user by email (awaited); if none, raise 404; if passwordless login
is enabled, await signup_user on the same email, so an exception raised there
propagates and its state change would persist; then run the password checks
on the user fetched before the signup call. -/
def log_user_in (st : RepoState) (s : Settings) (l : UserPasswordLoginSchema)
    (now : Nat) : Except HTTPException UserJWTResponseSchema × RepoState :=
  match get_user_by_email st l.email with
  | none =>
      (Except.error
        { status_code := 404, detail := "No user exists with the given email." }, st)
  | some user =>
      if s.passwordless_login_enabled then
        match signup_user st s { email := l.email, password := none } now with
        | (Except.error e, st') => (Except.error e, st')
        | (Except.ok _, st') => log_user_in_tail st' s user l now
      else
        log_user_in_tail st s user l now

/-! Concrete fixtures used by counterexamples and witnesses. -/

/-- Settings with every core option at its default, passwordless login
disabled. -/
def settings0 : Settings :=
  { passwordless_login_enabled := false,
    email_verification_required := false,
    jwt_secret_key := "k",
    jwt_algorithm := "HS256",
    jwt_access_token_expire_minutes := 30,
    jwt_refresh_token_expire_minutes := 43200,
    jwt_audience := "fastapi-auth" }

/-- Settings with passwordless login enabled. -/
def settingsPwl : Settings :=
  { settings0 with passwordless_login_enabled := true }

/-- A stored user with a password hash for the plaintext p1. -/
def alice : User :=
  { name := none, email := "a@x.com", profile_pic := none, password := some "h$p1" }

/-- A stored user with no password hash. -/
def bob : User :=
  { name := none, email := "b@x.com", profile_pic := none, password := none }

/-! Claim theorems. -/

/-- Claim C1, counterexample: with passwordless login enabled and an empty
repository, log_user_in for the unknown email raises the 404 exception and
creates no record, instead of provisioning an account and returning an
AuthResult as the claim states. -/
theorem c1_counterexample_passwordless_unknown_email_404 :
    log_user_in [] settingsPwl { email := "new@x.com", password := "" } 0 =
      (Except.error
        { status_code := 404, detail := "No user exists with the given email." },
       []) :=
  rfl

/-- Claim C1, amended: when passwordless_login_enabled is true, a login for an
email with no existing user record fails with the 404 user-not-found
exception and leaves the repository unchanged; the user-existence check runs
before the passwordless branch, so no account is provisioned. -/
theorem c1_amended_passwordless_unknown_email_404 (st : RepoState) (s : Settings)
    (l : UserPasswordLoginSchema) (now : Nat)
    (hpwl : s.passwordless_login_enabled = true)
    (h : get_user_by_email st l.email = none) :
    log_user_in st s l now =
      (Except.error
        { status_code := 404, detail := "No user exists with the given email." },
       st) := by
  unfold log_user_in
  rw [h]

/-- Claim C1, witness for the amended theorem at a concrete input. -/
theorem c1_amended_witness :
    log_user_in [alice] settingsPwl { email := "c@y.com", password := "" } 5 =
      (Except.error
        { status_code := 404, detail := "No user exists with the given email." },
       [alice]) :=
  c1_amended_passwordless_unknown_email_404 [alice] settingsPwl
    { email := "c@y.com", password := "" } 5 (by decide) (by decide)

/-- Claim C2, code bug: signup for a fresh email against an empty repository
raises the 400 duplicate-user exception and creates no record, because the
source never awaits get_user_by_email, so the truthy coroutine object trips
the duplicate check on every call. -/
theorem c2_signup_fresh_email_rejected :
    signup_user [] settings0 { email := "a@x.com", password := some "p1" } 0 =
      (Except.error { status_code := 400, detail := "User already exists." }, []) :=
  rfl

/-- Claim C3: for every signup whose email already belongs to a stored user,
signup_user fails with the 400 duplicate-user exception and the repository
state is unchanged. -/
theorem c3_signup_duplicate_email_rejected (st : RepoState) (s : Settings)
    (u : UserSignupSchema) (now : Nat) (usr : User)
    (h : get_user_by_email st u.email = some usr) :
    signup_user st s u now =
      (Except.error { status_code := 400, detail := "User already exists." }, st) :=
  rfl

/-- Claim C3, witness at a concrete input. -/
theorem c3_witness :
    signup_user [alice] settings0 { email := "a@x.com", password := some "p2" } 0 =
      (Except.error { status_code := 400, detail := "User already exists." },
       [alice]) :=
  c3_signup_duplicate_email_rejected [alice] settings0
    { email := "a@x.com", password := some "p2" } 0 alice (by decide)

/-- Claim C4: with passwordless login enabled, every log_user_in for an email
that has a stored user record fails with the 400 duplicate-user exception
raised by the invoked signup path, before any password verification; hence no
such login returns successfully. -/
theorem c4_passwordless_existing_email_duplicate_error (st : RepoState)
    (s : Settings) (l : UserPasswordLoginSchema) (now : Nat) (usr : User)
    (hpwl : s.passwordless_login_enabled = true)
    (h : get_user_by_email st l.email = some usr) :
    log_user_in st s l now =
      (Except.error { status_code := 400, detail := "User already exists." }, st) := by
  unfold log_user_in
  rw [h]
  simp [hpwl, signup_user]

/-- Claim C4, witness: even with the correct password, a passwordless-mode
login for a stored email fails with the duplicate-user exception. -/
theorem c4_witness :
    log_user_in [alice] settingsPwl { email := "a@x.com", password := "p1" } 0 =
      (Except.error { status_code := 400, detail := "User already exists." },
       [alice]) :=
  c4_passwordless_existing_email_duplicate_error [alice] settingsPwl
    { email := "a@x.com", password := "p1" } 0 alice (by decide) (by decide)

/-- Claim C5: every log_user_in for an email with no stored user record fails
with the 404 user-not-found exception, whatever the settings, and leaves the
repository unchanged. -/
theorem c5_login_unknown_email_404 (st : RepoState) (s : Settings)
    (l : UserPasswordLoginSchema) (now : Nat)
    (h : get_user_by_email st l.email = none) :
    log_user_in st s l now =
      (Except.error
        { status_code := 404, detail := "No user exists with the given email." },
       st) := by
  unfold log_user_in
  rw [h]

/-- Claim C5, witness at a concrete input. -/
theorem c5_witness :
    log_user_in [alice] settings0 { email := "b@x.com", password := "x" } 0 =
      (Except.error
        { status_code := 404, detail := "No user exists with the given email." },
       [alice]) :=
  c5_login_unknown_email_404 [alice] settings0
    { email := "b@x.com", password := "x" } 0 (by decide)

/-- Claim C6, counterexample: bob has a stored record with no password hash,
yet with passwordless login enabled his login fails with the 400
duplicate-user exception, not the 400 password-required exception the claim
names. -/
theorem c6_counterexample_passwordless_overrides_password_required :
    log_user_in [bob] settingsPwl { email := "b@x.com", password := "" } 0 =
      (Except.error { status_code := 400, detail := "User already exists." },
       [bob]) ∧
    ({ status_code := 400, detail := "User already exists." } : HTTPException) ≠
      { status_code := 400, detail := "Password is required." } := by
  constructor
  · rfl
  · decide

/-- Claim C6, amended: when passwordless login is disabled, every login whose
stored user record has no password hash fails with the 400 password-required
exception and leaves the repository unchanged. -/
theorem c6_amended_login_no_hash_password_required (st : RepoState) (s : Settings)
    (l : UserPasswordLoginSchema) (now : Nat) (usr : User)
    (hpwl : s.passwordless_login_enabled = false)
    (h : get_user_by_email st l.email = some usr)
    (hp : usr.password = none) :
    log_user_in st s l now =
      (Except.error { status_code := 400, detail := "Password is required." }, st) := by
  unfold log_user_in
  rw [h]
  simp [hpwl, log_user_in_tail, hp]

/-- Claim C6, witness for the amended theorem at a concrete input. -/
theorem c6_amended_witness :
    log_user_in [bob] settings0 { email := "b@x.com", password := "p" } 0 =
      (Except.error { status_code := 400, detail := "Password is required." },
       [bob]) :=
  c6_amended_login_no_hash_password_required [bob] settings0
    { email := "b@x.com", password := "p" } 0 bob (by decide) (by decide) (by decide)

/-- Claim C7, counterexample: alice has a stored password hash and the
submitted password is wrong, yet with passwordless login enabled the login
fails with the 400 duplicate-user exception, not the 401 invalid-credentials
exception the claim names. -/
theorem c7_counterexample_passwordless_overrides_invalid_credentials :
    log_user_in [alice] settingsPwl { email := "a@x.com", password := "nope" } 0 =
      (Except.error { status_code := 400, detail := "User already exists." },
       [alice]) ∧
    ({ status_code := 400, detail := "User already exists." } : HTTPException) ≠
      { status_code := 401, detail := "Invalid credentials" } := by
  constructor
  · rfl
  · decide

/-- Claim C7, amended: when passwordless login is disabled, every login whose
stored user has a nonempty password hash that the submitted password fails to
verify against fails with the 401 invalid-credentials exception; no session
credential is issued and the repository is unchanged. -/
theorem c7_amended_login_wrong_password_401 (st : RepoState) (s : Settings)
    (l : UserPasswordLoginSchema) (now : Nat) (usr : User) (hsh : String)
    (hpwl : s.passwordless_login_enabled = false)
    (h : get_user_by_email st l.email = some usr)
    (hp : usr.password = some hsh) (hne : hsh ≠ "")
    (hv : verify_password l.password hsh = false) :
    log_user_in st s l now =
      (Except.error { status_code := 401, detail := "Invalid credentials" }, st) := by
  unfold log_user_in
  rw [h]
  simp [hpwl, log_user_in_tail, hp, hne, hv]

/-- Claim C7, witness for the amended theorem at a concrete input. -/
theorem c7_amended_witness :
    log_user_in [alice] settings0 { email := "a@x.com", password := "wrong" } 0 =
      (Except.error { status_code := 401, detail := "Invalid credentials" },
       [alice]) :=
  c7_amended_login_wrong_password_401 [alice] settings0
    { email := "a@x.com", password := "wrong" } 0 alice "h$p1"
    (by decide) (by decide) (by decide) (by decide) (by decide)

/-- Claim C8: token round-trip. Validating a token issued for a user, with the
issuing key, at any time strictly before issued-at plus the configured TTL,
returns exactly the claims built from that user identity; at or after that
instant, validation fails with the Expired error. -/
theorem c8_token_roundtrip (user : User) (s : Settings) (now t : Nat) :
    (t < now + s.jwt_access_token_expire_minutes * 60 →
      validate (issue user s now) s.jwt_secret_key t =
        Except.ok
          { sub := user.email, aud := s.jwt_audience, iat := now,
            exp := now + s.jwt_access_token_expire_minutes * 60 }) ∧
    (now + s.jwt_access_token_expire_minutes * 60 ≤ t →
      validate (issue user s now) s.jwt_secret_key t =
        Except.error TokenError.Expired) := by
  constructor
  · intro h
    simp [validate, issue, issue_token]
    omega
  · intro h
    simp [validate, issue, issue_token]
    omega

/-- Claim C8, witness at a concrete input: fresh validation succeeds with the
issuing identity in the claims, and validation at the TTL boundary fails with
Expired. -/
theorem c8_witness :
    validate (issue alice settings0 0) settings0.jwt_secret_key 10 =
      Except.ok
        { sub := alice.email, aud := settings0.jwt_audience, iat := 0,
          exp := 0 + settings0.jwt_access_token_expire_minutes * 60 } ∧
    validate (issue alice settings0 0) settings0.jwt_secret_key 1800 =
      Except.error TokenError.Expired :=
  ⟨(c8_token_roundtrip alice settings0 0 10).1 (by decide),
   (c8_token_roundtrip alice settings0 0 1800).2 (by decide)⟩

/-- Claim C9: when passwordless login is disabled, log_user_in never mutates
the repository: on every path, success or failure, the state after the call
equals the state before it. -/
theorem c9_login_no_mutation (st : RepoState) (s : Settings)
    (l : UserPasswordLoginSchema) (now : Nat)
    (hpwl : s.passwordless_login_enabled = false) :
    (log_user_in st s l now).2 = st := by
  unfold log_user_in
  cases hu : get_user_by_email st l.email with
  | none => rfl
  | some usr =>
      simp only [hpwl, Bool.false_eq_true, if_false]
      unfold log_user_in_tail
      cases hp : usr.password with
      | none => rfl
      | some h =>
          by_cases he : h = ""
          · simp [he]
          · by_cases hv : verify_password l.password h
            · simp [he, hv]
            · simp [he, hv]

/-- Claim C9, witness: a successful login leaves the repository unchanged. -/
theorem c9_witness :
    (log_user_in [alice] settings0 { email := "a@x.com", password := "p1" } 0).2 =
      [alice] :=
  c9_login_no_mutation [alice] settings0
    { email := "a@x.com", password := "p1" } 0 (by decide)
